import Mathlib

/-!
Verification of `src/src/weak_on_trace.c`.

The source file defines a single function with GCC/Clang weak linkage:

  `__attribute__((weak)) void _on_trace(unsigned int, const unsigned char*, size_t) {}`

We give a shallow embedding. A call is interpreted over an explicit machine
state (byte memory, produced output, stored buffer references). The body of a
C function is translated into a list of primitive `Act`s (memory reads and
writes, output, frees, retains, resource acquisition, blocking); an
interpreter `run` executes such a list, recording the observable effects and
any fault (such as a null-pointer dereference). The body of `_on_trace` is
empty, so its action list is `[]`.

A C pointer is modelled as `Option Nat`: `none` is the null pointer, `some a`
a base address into byte memory.
-/

/-- Observable machine state outside a call: byte-addressed memory, the
output produced so far, and the buffer references the program has stored
(retained) beyond a call. -/
structure TraceState where
  mem : Nat → Nat
  output : List String
  storedRefs : List (Option Nat)

/-- The observable effects of executing a body: addresses dereferenced,
addresses written, pointers freed, resources acquired, whether the execution
ever blocked/suspended/yielded, and the number of primitive steps taken. -/
structure Effects where
  reads : List Nat
  writes : List Nat
  frees : List (Option Nat)
  acquired : List Nat
  blocked : Bool
  steps : Nat
deriving DecidableEq, Repr

/-- The effects of doing nothing at all. -/
def Effects.empty : Effects := ⟨[], [], [], [], false, 0⟩

/-- Primitive actions a C function body can perform in this model. -/
inductive Act where
  | read (p : Option Nat) (off : Nat)
  | write (addr val : Nat)
  | output (msg : String)
  | free (p : Option Nat)
  | retain (p : Option Nat)
  | acquire (r : Nat)
  | block
deriving DecidableEq, Repr

/-- A fault: undefined behaviour that aborts execution. -/
inductive Fault where
  | nullDeref
deriving DecidableEq, Repr

/-- The outcome of running a body: the final state, the accumulated effects,
and the fault that stopped execution, if any. -/
structure RunResult where
  state : TraceState
  eff : Effects
  fault : Option Fault

/-- Interpreter for a body, i.e. a list of primitive actions, from a given
state. Dereferencing the null pointer is a fault; every other action updates
the state or the effect record and continues. -/
def run : List Act → TraceState → RunResult
  | [], s => ⟨s, Effects.empty, none⟩
  | Act.read p off :: rest, s =>
    match p with
    | none => ⟨s, { Effects.empty with steps := 1 }, some Fault.nullDeref⟩
    | some a =>
      let r := run rest s
      ⟨r.state, { r.eff with reads := (a + off) :: r.eff.reads, steps := r.eff.steps + 1 }, r.fault⟩
  | Act.write a v :: rest, s =>
    let r := run rest { s with mem := fun x => if x = a then v else s.mem x }
    ⟨r.state, { r.eff with writes := a :: r.eff.writes, steps := r.eff.steps + 1 }, r.fault⟩
  | Act.output m :: rest, s =>
    let r := run rest { s with output := s.output ++ [m] }
    ⟨r.state, { r.eff with steps := r.eff.steps + 1 }, r.fault⟩
  | Act.free p :: rest, s =>
    let r := run rest s
    ⟨r.state, { r.eff with frees := p :: r.eff.frees, steps := r.eff.steps + 1 }, r.fault⟩
  | Act.retain p :: rest, s =>
    let r := run rest { s with storedRefs := p :: s.storedRefs }
    ⟨r.state, { r.eff with steps := r.eff.steps + 1 }, r.fault⟩
  | Act.acquire x :: rest, s =>
    let r := run rest s
    ⟨r.state, { r.eff with acquired := x :: r.eff.acquired, steps := r.eff.steps + 1 }, r.fault⟩
  | Act.block :: rest, s =>
    let r := run rest s
    ⟨r.state, { r.eff with blocked := true, steps := r.eff.steps + 1 }, r.fault⟩

/-- The body of `_on_trace` in `src/src/weak_on_trace.c`: the function body is
the empty block `{}`, so it performs no actions. The three parameters
(`unsigned int`, `const unsigned char*`, `size_t`) are unnamed in the source
and unused. -/
def on_trace_body (_ : Nat) (_ : Option Nat) (_ : Nat) : List Act := []

/-- Shallow embedding of `_on_trace`: execute its (empty) body from state
`s`. -/
def _on_trace (event_id : Nat) (data : Option Nat) (length : Nat) (s : TraceState) : RunResult :=
  run (on_trace_body event_id data length) s

/-- Linkage precedence of a symbol definition. -/
inductive Linkage where
  | weak
  | strong
deriving DecidableEq, BEq, Repr

/-- The linkage the source gives `_on_trace`: `__attribute__((weak))`. -/
def on_trace_linkage : Linkage := Linkage.weak

/-- A definition of the `_on_trace` symbol offered to the linker: its linkage
and its implementation. -/
structure SymbolDef where
  linkage : Linkage
  impl : Nat → Option Nat → Nat → TraceState → RunResult

/-- The symbol definition `src/src/weak_on_trace.c` emits. -/
def defaultSymbol : SymbolDef := ⟨on_trace_linkage, _on_trace⟩

/-- A link-time error. -/
inductive LinkError where
  | duplicateSymbol
  | undefinedSymbol
deriving DecidableEq, Repr

/-- Modelled from the spec: link-time resolution of the `_on_trace` symbol
(the linker itself is outside this repository). A strong definition silently
takes precedence over any weak ones; two strong definitions are a
duplicate-symbol error; with no strong definition the first weak one is
selected; with no definition at all the symbol is undefined. -/
def resolveHook (defs : List SymbolDef) : Except LinkError SymbolDef :=
  match defs.filter (fun d => d.linkage == Linkage.strong) with
  | [] =>
    match defs.filter (fun d => d.linkage == Linkage.weak) with
    | [] => Except.error LinkError.undefinedSymbol
    | w :: _ => Except.ok w
  | [st] => Except.ok st
  | _ :: _ :: _ => Except.error LinkError.duplicateSymbol

/-- Run a finite sequence of calls to `_on_trace`, threading the machine
state through; each element of the list is one call's arguments
`(event_id, data, length)`. -/
def runCalls : List (Nat × Option Nat × Nat) → TraceState → TraceState
  | [], s => s
  | (e, d, l) :: rest, s => runCalls rest ((_on_trace e d l s).state)

/-- `il` is an interleaving of the bodies of a list of concurrent threads:
at each step some thread contributes its next action. -/
inductive InterleaveAll : List (List Act) → List Act → Prop where
  | done (ts : List (List Act)) : (∀ t ∈ ts, t = []) → InterleaveAll ts []
  | step (pre : List (List Act)) (a : Act) (rest : List Act)
      (post : List (List Act)) (il : List Act) :
      InterleaveAll (pre ++ rest :: post) il →
      InterleaveAll (pre ++ (a :: rest) :: post) (a :: il)

/-- An interleaving of all-empty thread bodies is empty. -/
theorem interleave_of_empties {ts : List (List Act)} {il : List Act}
    (hts : ∀ t ∈ ts, t = []) (h : InterleaveAll ts il) : il = [] := by
  cases h with
  | done _ _ => rfl
  | step pre a rest post il' _ =>
    exact absurd (hts (a :: rest) (by simp)) (by simp)

/-- A concrete memory, used to instantiate witnesses. -/
def zeroState : TraceState := ⟨fun _ => 0, [], []⟩

/-- C1: for every input with a 32-bit `event_id`, calling the default hook
`_on_trace` returns with no observable effect: the machine state (memory,
output, stored references) is unchanged, the effects are empty, and no fault
occurs. -/
theorem on_trace_no_observable_effect (e : Nat) (d : Option Nat) (l : Nat)
    (s : TraceState) (h : e < 2 ^ 32) :
    _on_trace e d l s = ⟨s, Effects.empty, none⟩ := rfl

theorem on_trace_no_observable_effect_witness :
    7 < 2 ^ 32 ∧ _on_trace 7 (some 100) 2 zeroState = ⟨zeroState, Effects.empty, none⟩ :=
  ⟨by norm_num, on_trace_no_observable_effect 7 (some 100) 2 zeroState (by norm_num)⟩

/-- C2: a call to `_on_trace` always succeeds: for every input the run
produces no fault, so no error condition exists or can be surfaced. -/
theorem on_trace_total (e : Nat) (d : Option Nat) (l : Nat) (s : TraceState) :
    (_on_trace e d l s).fault = none := rfl

/-- C3: the source emits `_on_trace` with weak linkage; under the modelled
link-time resolution, linking the default alone selects the default, and
linking the default together with any strong same-signature definition
selects only the strong one, with no duplicate-symbol error. -/
theorem on_trace_weak_overridable (st : SymbolDef) (h : st.linkage = Linkage.strong) :
    on_trace_linkage = Linkage.weak ∧
    resolveHook [defaultSymbol] = Except.ok defaultSymbol ∧
    resolveHook [defaultSymbol, st] = Except.ok st := by
  refine ⟨rfl, rfl, ?_⟩
  obtain ⟨lk, impl⟩ := st
  cases h
  rfl

theorem on_trace_weak_overridable_witness :
    on_trace_linkage = Linkage.weak ∧
    resolveHook [defaultSymbol] = Except.ok defaultSymbol ∧
    resolveHook [defaultSymbol, ⟨Linkage.strong, fun _ _ _ s => ⟨s, Effects.empty, none⟩⟩] =
      Except.ok ⟨Linkage.strong, fun _ _ _ s => ⟨s, Effects.empty, none⟩⟩ :=
  on_trace_weak_overridable ⟨Linkage.strong, fun _ _ _ s => ⟨s, Effects.empty, none⟩⟩ rfl

/-- C4: calling `_on_trace` with the null buffer and `length = 0` does not
fault and dereferences nothing: the read set is empty. -/
theorem on_trace_null_zero_safe (e : Nat) (s : TraceState) :
    (_on_trace e none 0 s).fault = none ∧ (_on_trace e none 0 s).eff.reads = [] :=
  ⟨rfl, rfl⟩

/-- C5: every call to `_on_trace` terminates, completing synchronously and
immediately: the run finishes without fault in zero steps, never blocks,
suspends or yields, and acquires no resource. -/
theorem on_trace_terminates (e : Nat) (d : Option Nat) (l : Nat) (s : TraceState) :
    (_on_trace e d l s).fault = none ∧
    (_on_trace e d l s).eff.steps = 0 ∧
    (_on_trace e d l s).eff.blocked = false ∧
    (_on_trace e d l s).eff.acquired = [] :=
  ⟨rfl, rfl, rfl, rfl⟩

/-- C6: `_on_trace` neither retains, mutates, nor frees the buffer: after the
call, memory (hence the buffer's contents) and the set of stored references
are unchanged, and the write and free sets are empty. -/
theorem on_trace_buffer_untouched (e : Nat) (d : Option Nat) (l : Nat) (s : TraceState) :
    (_on_trace e d l s).state.mem = s.mem ∧
    (_on_trace e d l s).state.storedRefs = s.storedRefs ∧
    (_on_trace e d l s).eff.writes = [] ∧
    (_on_trace e d l s).eff.frees = [] :=
  ⟨rfl, rfl, rfl, rfl⟩

/-- C7: the behaviour of `_on_trace` does not depend on any of its inputs:
from the same initial state, any two calls with arbitrary arguments have
identical outcomes (final state, effects and fault). -/
theorem on_trace_input_independent (e₁ e₂ : Nat) (d₁ d₂ : Option Nat)
    (l₁ l₂ : Nat) (s : TraceState) :
    _on_trace e₁ d₁ l₁ s = _on_trace e₂ d₂ l₂ s := rfl

/-- C8: any interleaved concurrent execution of the bodies of finitely many
simultaneous `_on_trace` calls, with arbitrary per-thread arguments and no
synchronization, runs without fault and leaves the state unchanged: no race,
corruption or crash is observable. -/
theorem on_trace_concurrent_safe (argss : List (Nat × Option Nat × Nat))
    (il : List Act) (s : TraceState)
    (h : InterleaveAll (argss.map fun t => on_trace_body t.1 t.2.1 t.2.2) il) :
    run il s = ⟨s, Effects.empty, none⟩ := by
  have hil : il = [] := interleave_of_empties (by simp [on_trace_body]) h
  subst hil
  rfl

theorem on_trace_concurrent_safe_witness :
    run [] zeroState = ⟨zeroState, Effects.empty, none⟩ :=
  on_trace_concurrent_safe [(1, none, 0), (2, some 5, 3)] [] zeroState
    (InterleaveAll.done _ (by simp [on_trace_body]))

/-- C9: `_on_trace` never reads the buffer at all, so for every length —
including nonzero ones — calling it with the null pointer produces no fault
and no dereference. -/
theorem on_trace_null_any_length_safe (e l : Nat) (s : TraceState) :
    (_on_trace e none l s).eff.reads = [] ∧ (_on_trace e none l s).fault = none :=
  ⟨rfl, rfl⟩

/-- C10: any finite sequence of `_on_trace` calls leaves the state exactly as
no calls at all; in particular repeating a call equals performing it once,
and any two calls commute. -/
theorem on_trace_calls_identity (calls : List (Nat × Option Nat × Nat))
    (c₁ c₂ : Nat × Option Nat × Nat) (s : TraceState) :
    runCalls calls s = s ∧
    runCalls [c₁, c₁] s = runCalls [c₁] s ∧
    runCalls [c₁, c₂] s = runCalls [c₂, c₁] s := by
  refine ⟨?_, ?_, ?_⟩
  · induction calls generalizing s with
    | nil => rfl
    | cons c rest ih =>
      obtain ⟨e, d, l⟩ := c
      exact ih s
  · obtain ⟨e, d, l⟩ := c₁
    rfl
  · obtain ⟨e₁, d₁, l₁⟩ := c₁
    obtain ⟨e₂, d₂, l₂⟩ := c₂
    rfl
